import Mathlib

/-!
Verification of the feature-construction and discount-prediction core of the
airline-discount-ml repository, as a shallow embedding in Lean.

The embedding follows `src/models/passenger_profiler.py` and
`src/models/discount_predictor.py`.  Tabular data (pandas DataFrames) is
modelled as an ordered list of named columns over an explicit row index;
cell values are rationals, strings, or the missing-value marker `NA`
(pandas `pd.NA` / NaN after `use_inf_as_na`).
-/

deriving instance DecidableEq for Except

namespace AirlineML

/-- A cell value of a tabular column: a numeric value, a string, or the
explicit missing-value marker (pandas `pd.NA`). -/
inductive Value where
  | num (q : Rat)
  | str (s : String)
  | NA
deriving DecidableEq, Repr

/-- A pandas DataFrame: an ordered row index (row labels) together with an
ordered list of named columns, each holding one value per row. -/
structure DataFrame where
  index : List Nat
  cols : List (String × List Value)
deriving DecidableEq, Repr

/-- Column names of the frame, in order (pandas `df.columns`). -/
def DataFrame.colNames (df : DataFrame) : List String :=
  df.cols.map Prod.fst

/-- Membership test for a column name (pandas `name in df.columns`). -/
def DataFrame.hasCol (df : DataFrame) (name : String) : Bool :=
  df.colNames.contains name

/-- Look up a column's values by name (pandas `df[name]`). -/
def DataFrame.getCol (df : DataFrame) (name : String) : Option (List Value) :=
  (df.cols.find? (fun p => p.1 == name)).map Prod.snd

/-- pandas `df.empty`: true when either axis has length zero. -/
def DataFrame.isEmpty (df : DataFrame) : Bool :=
  df.index.isEmpty || df.cols.isEmpty

/-- Well-formedness: every column has exactly one value per index entry. -/
def DataFrame.WF (df : DataFrame) : Prop :=
  ∀ p ∈ df.cols, (Prod.snd p).length = df.index.length

instance (df : DataFrame) : Decidable df.WF := by
  unfold DataFrame.WF; infer_instance

/-- A pandas Series: a row index with one value per row. -/
structure Series where
  index : List Nat
  values : List Value
deriving DecidableEq, Repr

/-- pandas `s.empty`. -/
def Series.isEmpty (s : Series) : Bool :=
  s.values.isEmpty

/-- Scalar multiplication of a cell by a rational factor; the missing
marker (and any non-numeric cell) propagates as missing. -/
def Value.scale (v : Value) (r : Rat) : Value :=
  match v with
  | .num q => .num (q * r)
  | _ => .NA

/-- Element-wise pandas division under `mode.use_inf_as_na`:
division by zero yields infinity/NaN which the option turns into the
missing marker, and a missing operand propagates as missing. -/
def Value.divNA (a b : Value) : Value :=
  match a, b with
  | .num x, .num y => if y = 0 then .NA else .num (x / y)
  | _, _ => .NA

/-- `REQUIRED_OUTPUT_COLUMNS` of `passenger_profiler.py`. -/
def REQUIRED_OUTPUT_COLUMNS : List String :=
  ["distance_km", "history_trips", "avg_spend", "route_id", "origin", "destination"]

/-- Miles-to-kilometres factor `1.60934` used by `build_features`. -/
def milesToKm : Rat := 160934 / 100000

/-- The `distance_km` block of `build_features`: prefer `distance_km`,
else convert a present `distance` (miles), else mark unknown. -/
def distanceCol (df : DataFrame) : List Value :=
  match df.getCol "distance_km" with
  | some v => v
  | none =>
    match df.getCol "distance" with
    | some v => v.map (fun x => x.scale milesToKm)
    | none => List.replicate df.index.length Value.NA

/-- The `history_trips` block of `build_features`: prefer `history_trips`,
else fall back to `trips_count`, else mark unknown. -/
def historyCol (df : DataFrame) : List Value :=
  match df.getCol "history_trips" with
  | some v => v
  | none =>
    match df.getCol "trips_count" with
    | some v => v
    | none => List.replicate df.index.length Value.NA

/-- The `avg_spend` block of `build_features`: prefer `avg_spend`, else
derive as `total_spend / out["history_trips"]` (the already-derived
history column, which is always present at that point), else mark
unknown. -/
def avgSpendCol (df : DataFrame) : List Value :=
  match df.getCol "avg_spend" with
  | some v => v
  | none =>
    match df.getCol "total_spend" with
    | some v => (v.zip (historyCol df)).map (fun p => Value.divNA p.1 p.2)
    | none => List.replicate df.index.length Value.NA

/-- A passthrough block of `build_features` (`route_id`, `origin`,
`destination`): use the source column directly if present, else mark
unknown. -/
def passthroughCol (df : DataFrame) (name : String) : List Value :=
  (df.getCol name).getD (List.replicate df.index.length Value.NA)

/-- `passenger_profiler.build_features`: pure feature construction.
Rejects an empty frame; otherwise derives each of the six required output
columns by the first matching rule (falling back to the missing marker)
and returns them in the `REQUIRED_OUTPUT_COLUMNS` order on the input's
row index. -/
def build_features (df : DataFrame) : Except String DataFrame :=
  if df.isEmpty then
    .error "Input must be a non-empty pandas DataFrame."
  else
    .ok { index := df.index,
          cols := [("distance_km", distanceCol df),
                   ("history_trips", historyCol df),
                   ("avg_spend", avgSpendCol df),
                   ("route_id", passthroughCol df "route_id"),
                   ("origin", passthroughCol df "origin"),
                   ("destination", passthroughCol df "destination")] }

/-! ### Discount predictor (`discount_predictor.py`) -/

/-- `REQUIRED_NUMERIC` of `discount_predictor.py`. -/
def REQUIRED_NUMERIC : List String := ["distance_km", "history_trips", "avg_spend"]

/-- `REQUIRED_CATEGORICAL` of `discount_predictor.py`. -/
def REQUIRED_CATEGORICAL : List String := ["route_id", "origin", "destination"]

/-- `REQUIRED_FEATURES = REQUIRED_NUMERIC + REQUIRED_CATEGORICAL`. -/
def REQUIRED_FEATURES : List String := REQUIRED_NUMERIC ++ REQUIRED_CATEGORICAL

/-- The errors `DiscountPredictor` raises, one constructor per distinct
`raise` site.  `ValueError`s (input validation) are `emptyX`,
`missingColumns`, `emptyY`; `RuntimeError`s (lifecycle state) are
`pipelineNotInitialized`, `notFitted`, `cannotSaveUnfitted`. -/
inductive PredError where
  | emptyX
  | missingColumns (missing : List String)
  | emptyY
  | pipelineNotInitialized
  | notFitted
  | cannotSaveUnfitted
deriving DecidableEq, Repr

/-- The required columns absent from `X`, in declaration order
(the set `set(REQUIRED_FEATURES) - set(X.columns)` of `_validate_X`). -/
def missingOf (X : DataFrame) : List String :=
  REQUIRED_FEATURES.filter (fun c => !X.hasCol c)

/-- Modelled from the spec: the sklearn `Pipeline` (median/mode imputation,
standard scaling, one-hot encoding, linear regression) is third-party code
outside this repository.  The spec requires only that a fitted pipeline is
an opaque serializable artifact fully determined by the data it was fitted
on, and that prediction is a deterministic function of the trained state
and the input, producing one numeric value per input row.  The trained
state is therefore represented by the training data itself, and `predict`
is a fixed deterministic function of that state and the input rows. -/
structure SklearnPipeline where
  trainedOn : Option (DataFrame × List Value)
deriving DecidableEq, Repr

/-- A freshly constructed, unfitted sklearn pipeline. -/
def SklearnPipeline.initial : SklearnPipeline := { trainedOn := none }

/-- `pipeline.fit(X, y)`: records the learned state. -/
def SklearnPipeline.fitOn (_pl : SklearnPipeline) (X : DataFrame) (y : List Value) :
    SklearnPipeline :=
  { trainedOn := some (X, y) }

/-- The numeric entries of a value list. -/
def numsOf (vs : List Value) : List Rat :=
  vs.filterMap (fun v => match v with | .num q => some q | _ => none)

/-- Mean of a list of rationals (0 on the empty list). -/
def ratMean (l : List Rat) : Rat :=
  if l.length = 0 then 0 else l.sum / l.length

/-- Modelled from the spec: `pipeline.predict(X)` — a deterministic
function of the trained state and the input, one numeric value per input
row (here: the mean of the numeric training targets). -/
def SklearnPipeline.predictRows (pl : SklearnPipeline) (X : DataFrame) : List Rat :=
  match pl.trainedOn with
  | some (_, y) => X.index.map (fun _ => ratMean (numsOf y))
  | none => []

/-- The state of a `DiscountPredictor` instance: its `_pipeline` field
(`Optional[Pipeline]`) and its `_fitted` flag. -/
structure DiscountPredictor where
  pipeline : Option SklearnPipeline
  fitted : Bool
deriving DecidableEq, Repr

namespace DiscountPredictor

/-- `DiscountPredictor.__init__`: fresh pipeline, `_fitted = False`. -/
def init : DiscountPredictor :=
  { pipeline := some SklearnPipeline.initial, fitted := false }

/-- `DiscountPredictor._validate_X`: empty check first, then the
missing-required-columns check.  (The `isinstance` check is enforced by
the type of `X` in this embedding.) -/
def validate_X (X : DataFrame) : Except PredError Unit :=
  if X.isEmpty then .error .emptyX
  else if missingOf X = [] then .ok ()
  else .error (.missingColumns (missingOf X))

/-- `DiscountPredictor._validate_y`. -/
def validate_y (y : Series) : Except PredError Unit :=
  if y.isEmpty then .error .emptyY else .ok ()

/-- `y.loc[X.index]`: realign the target values to the feature index. -/
def alignY (y : Series) (idx : List Nat) : List Value :=
  idx.map (fun i =>
    (((y.index.zip y.values).find? (fun p => p.1 == i)).map Prod.snd).getD Value.NA)

/-- `DiscountPredictor.fit`: validate `X`, then `y`, then the pipeline;
fit the pipeline on the aligned data and set `_fitted = True`.  The pair
returned is (raised error or unit, the instance state after the call),
mirroring the in-place mutation of the Python object: on any raise the
state is unchanged. -/
def fit (p : DiscountPredictor) (X : DataFrame) (y : Series) :
    Except PredError Unit × DiscountPredictor :=
  match validate_X X with
  | .error e => (.error e, p)
  | .ok _ =>
    match validate_y y with
    | .error e => (.error e, p)
    | .ok _ =>
      match p.pipeline with
      | none => (.error .pipelineNotInitialized, p)
      | some pl =>
        let ya := alignY y X.index
        (.ok (), { pipeline := some (pl.fitOn X ya), fitted := true })

/-- `DiscountPredictor.predict`: the not-fitted state check
(`not self._fitted or self._pipeline is None`) precedes input validation;
on success returns a Series of predictions carrying the input index. -/
def predict (p : DiscountPredictor) (X : DataFrame) : Except PredError Series :=
  if !p.fitted || p.pipeline.isNone then .error .notFitted
  else
    match p.pipeline with
    | none => .error .notFitted
    | some pl =>
      match validate_X X with
      | .error e => .error e
      | .ok _ =>
        .ok { index := X.index, values := (pl.predictRows X).map Value.num }

/-- The serialized artifact written by `save`: the pipeline object plus the
integer format-version tag `1` (the dict `{"pipeline": ..., "version": 1}`). -/
structure Artifact where
  pipeline : SklearnPipeline
  version : Nat
deriving DecidableEq, Repr

/-- Modelled from the spec: the filesystem reached through `joblib.dump` /
`joblib.load` — the artifact file "must round-trip through the same
serialization mechanism used to write it", so serialization preserves the
artifact value.  A store maps paths to artifacts. -/
def Store := List (String × Artifact)

instance : DecidableEq Store := by
  unfold Store; infer_instance

/-- Read the artifact at a path, if any. -/
def storeGet (s : Store) (path : String) : Option Artifact :=
  (List.find? (fun p => p.1 == path) s).map Prod.snd

/-- Write (create or overwrite) the artifact at a path. -/
def storePut (s : Store) (path : String) (a : Artifact) : Store :=
  (path, a) :: List.filter (fun p => !(p.1 == path)) s

/-- `DiscountPredictor.save`: refuses an unfitted model, else dumps the
pipeline with version tag 1 to the given path. -/
def save (p : DiscountPredictor) (path : String) (s : Store) :
    Except PredError Store :=
  if !p.fitted || p.pipeline.isNone then .error .cannotSaveUnfitted
  else
    match p.pipeline with
    | none => .error .cannotSaveUnfitted
    | some pl => .ok (storePut s path { pipeline := pl, version := 1 })

/-- Errors of `DiscountPredictor.load`. -/
inductive LoadError where
  | fileNotFound
deriving DecidableEq, Repr

/-- `DiscountPredictor.load`: class-level factory — reads the artifact,
installs its pipeline in a fresh instance and marks it fitted. -/
def load (path : String) (s : Store) : Except LoadError DiscountPredictor :=
  match storeGet s path with
  | none => .error .fileNotFound
  | some blob => .ok { pipeline := some blob.pipeline, fitted := true }

end DiscountPredictor

/-! ### Concrete example data used by the witnesses -/

/-- A fully empty frame (`pd.DataFrame()`): no rows, no columns. -/
def emptyDF : DataFrame := { index := [], cols := [] }

/-- A valid training frame carrying exactly the six required columns. -/
def exX6 : DataFrame :=
  { index := [0, 1],
    cols := [("distance_km", [.num 100, .num 200]),
             ("history_trips", [.num 1, .num 2]),
             ("avg_spend", [.num 50, .num 60]),
             ("route_id", [.str "R1", .str "R2"]),
             ("origin", [.str "A", .str "B"]),
             ("destination", [.str "C", .str "D"])] }

/-- A target Series aligned with `exX6`. -/
def exY : Series := { index := [0, 1], values := [.num 5, .num 10] }

/-- `exX6` with an additional seventh column. -/
def ex7 : DataFrame :=
  { exX6 with cols := exX6.cols ++ [("extra", [.num 0, .num 0])] }

/-- A non-empty frame missing five of the six required columns. -/
def exXmiss : DataFrame := { index := [0], cols := [("distance_km", [.num 1])] }

/-- The raw record of the spec's feature-normalizer example:
`{"distance": 2150.0, "history_trips": 5, "avg_spend": 800.0,
"route_id": "R1", "origin": "NYC", "destination": "LON"}`. -/
def exC5 : DataFrame :=
  { index := [0],
    cols := [("distance", [.num 2150]),
             ("history_trips", [.num 5]),
             ("avg_spend", [.num 800]),
             ("route_id", [.str "R1"]),
             ("origin", [.str "NYC"]),
             ("destination", [.str "LON"])] }

/-- The feature frame `build_features` produces from `exC5`. -/
def exC5out : DataFrame :=
  { index := [0],
    cols := [("distance_km", [.num (3460081 / 1000)]),
             ("history_trips", [.num 5]),
             ("avg_spend", [.num 800]),
             ("route_id", [.str "R1"]),
             ("origin", [.str "NYC"]),
             ("destination", [.str "LON"])] }

/-- A frame with `total_spend` but no `avg_spend`, whose trip counts
include a zero and a missing value. -/
def exC6 : DataFrame :=
  { index := [0, 1, 2],
    cols := [("total_spend", [.num 100, .num 90, .num 50]),
             ("history_trips", [.num 0, Value.NA, .num 2])] }

/-- The predictor obtained by fitting a fresh instance on `exX6`/`exY`. -/
def trainedEx : DiscountPredictor := (DiscountPredictor.init.fit exX6 exY).2

/-! ### Shared lemmas -/

theorem predict_unfitted (p : DiscountPredictor) (h : p.fitted = false)
    (X : DataFrame) : p.predict X = .error .notFitted := by
  simp [DiscountPredictor.predict, h]

theorem save_unfitted (p : DiscountPredictor) (h : p.fitted = false)
    (path : String) (s : DiscountPredictor.Store) :
    p.save path s = .error .cannotSaveUnfitted := by
  simp [DiscountPredictor.save, h]

theorem fit_error_state (p : DiscountPredictor) (X : DataFrame) (y : Series)
    (e : PredError) (he : (p.fit X y).1 = .error e) : (p.fit X y).2 = p := by
  cases hvx : DiscountPredictor.validate_X X with
  | error e1 => simp [DiscountPredictor.fit, hvx]
  | ok u =>
    cases hvy : DiscountPredictor.validate_y y with
    | error e2 => simp [DiscountPredictor.fit, hvx, hvy]
    | ok u' =>
      cases hpl : p.pipeline with
      | none => simp [DiscountPredictor.fit, hvx, hvy, hpl]
      | some pl => simp [DiscountPredictor.fit, hvx, hvy, hpl] at he

theorem getCol_eq_none_of_hasCol_false (df : DataFrame) (c : String)
    (h : df.hasCol c = false) : df.getCol c = none := by
  unfold DataFrame.getCol
  rw [Option.map_eq_none', List.find?_eq_none]
  intro x hx hbeq
  unfold DataFrame.hasCol DataFrame.colNames at h
  simp at h
  apply h x.2
  rw [← eq_of_beq hbeq, Prod.mk.eta]
  exact hx

theorem build_features_ok (df : DataFrame) (h : df.isEmpty = false) :
    build_features df =
      .ok { index := df.index,
            cols := [("distance_km", distanceCol df),
                     ("history_trips", historyCol df),
                     ("avg_spend", avgSpendCol df),
                     ("route_id", passthroughCol df "route_id"),
                     ("origin", passthroughCol df "origin"),
                     ("destination", passthroughCol df "destination")] } := by
  simp [build_features, h]

/-! ### The claims -/

/-- C2: on every non-empty input, `build_features` returns a frame whose
columns are exactly the six required ones in the fixed order, on the same
row index in the same order, and a source field with no matching
derivation rule yields a column of explicit unknown markers rather than
being omitted. -/
theorem C2_schema_and_unknowns (df : DataFrame) (h : df.isEmpty = false) :
    ∃ out, build_features df = .ok out ∧
      out.colNames = REQUIRED_OUTPUT_COLUMNS ∧
      out.index = df.index ∧
      (df.hasCol "distance_km" = false → df.hasCol "distance" = false →
        out.getCol "distance_km" = some (List.replicate df.index.length Value.NA)) ∧
      (df.hasCol "history_trips" = false → df.hasCol "trips_count" = false →
        out.getCol "history_trips" = some (List.replicate df.index.length Value.NA)) ∧
      (df.hasCol "avg_spend" = false → df.hasCol "total_spend" = false →
        out.getCol "avg_spend" = some (List.replicate df.index.length Value.NA)) ∧
      (df.hasCol "route_id" = false →
        out.getCol "route_id" = some (List.replicate df.index.length Value.NA)) ∧
      (df.hasCol "origin" = false →
        out.getCol "origin" = some (List.replicate df.index.length Value.NA)) ∧
      (df.hasCol "destination" = false →
        out.getCol "destination" = some (List.replicate df.index.length Value.NA)) := by
  refine ⟨_, build_features_ok df h, rfl, rfl, ?_, ?_, ?_, ?_, ?_, ?_⟩
  · intro h1 h2
    have e1 := getCol_eq_none_of_hasCol_false df _ h1
    have e2 := getCol_eq_none_of_hasCol_false df _ h2
    unfold DataFrame.getCol at e1 e2
    simp [DataFrame.getCol, List.find?,distanceCol, e1, e2]
  · intro h1 h2
    have e1 := getCol_eq_none_of_hasCol_false df _ h1
    have e2 := getCol_eq_none_of_hasCol_false df _ h2
    unfold DataFrame.getCol at e1 e2
    simp [DataFrame.getCol, List.find?,historyCol, e1, e2]
  · intro h1 h2
    have e1 := getCol_eq_none_of_hasCol_false df _ h1
    have e2 := getCol_eq_none_of_hasCol_false df _ h2
    unfold DataFrame.getCol at e1 e2
    simp [DataFrame.getCol, List.find?,avgSpendCol, e1, e2]
  · intro h1
    have e1 := getCol_eq_none_of_hasCol_false df _ h1
    unfold DataFrame.getCol at e1
    simp [DataFrame.getCol, List.find?, passthroughCol, e1]
  · intro h1
    have e1 := getCol_eq_none_of_hasCol_false df _ h1
    unfold DataFrame.getCol at e1
    simp [DataFrame.getCol, List.find?, passthroughCol, e1]
  · intro h1
    have e1 := getCol_eq_none_of_hasCol_false df _ h1
    unfold DataFrame.getCol at e1
    simp [DataFrame.getCol, List.find?, passthroughCol, e1]

theorem exC5_eval : build_features exC5 = .ok exC5out := by
  rw [build_features_ok exC5 rfl]
  simp [exC5, exC5out, distanceCol, historyCol, avgSpendCol, passthroughCol,
        DataFrame.getCol, List.find?, Value.scale, milesToKm]
  norm_num

/-- Witness for C2: the spec's example record, whose output frame has the
six required columns in order on the input's index. -/
theorem C2_schema_and_unknowns_witness :
    build_features exC5 = .ok exC5out ∧
    exC5out.colNames = REQUIRED_OUTPUT_COLUMNS ∧
    exC5out.index = exC5.index := by
  obtain ⟨out, hok, hcols, hidx, _⟩ := C2_schema_and_unknowns exC5 (by decide)
  rw [exC5_eval] at hok
  injection hok with h3
  subst h3
  exact ⟨exC5_eval, hcols, hidx⟩

theorem divNA_zero (t : Value) : Value.divNA t (Value.num 0) = Value.NA := by
  cases t <;> simp [Value.divNA]

theorem divNA_NA (t : Value) : Value.divNA t Value.NA = Value.NA := by
  cases t <;> rfl

theorem zip_map_divNA_get : ∀ (l l' : List Value) (i : Nat) (a b : Value),
    l[i]? = some a → l'[i]? = some b →
    ((l.zip l').map (fun p => Value.divNA p.1 p.2))[i]?
      = some (Value.divNA a b) := by
  intro l
  induction l with
  | nil => intro l' i a b h1 _; simp at h1
  | cons x xs ih =>
    intro l' i a b h1 h2
    cases l' with
    | nil => simp at h2
    | cons y ys =>
      cases i with
      | zero =>
        simp at h1 h2
        subst h1; subst h2
        simp [List.zip_cons_cons]
      | succ n =>
        simp at h1 h2
        simpa using ih ys n a b h1 h2

/-- C5: the `distance_km` derivation of `build_features` — a present
`distance_km` column is used directly; otherwise a present `distance`
column (miles) is multiplied by 1.60934; otherwise the column is all
unknown markers. -/
theorem C5_distance_rules (df : DataFrame) (h : df.isEmpty = false) :
    ∃ out, build_features df = .ok out ∧
      (∀ v, df.getCol "distance_km" = some v →
        out.getCol "distance_km" = some v) ∧
      (∀ v, df.getCol "distance_km" = none → df.getCol "distance" = some v →
        out.getCol "distance_km" = some (v.map (fun x => x.scale milesToKm))) ∧
      (df.getCol "distance_km" = none → df.getCol "distance" = none →
        out.getCol "distance_km" = some (List.replicate df.index.length Value.NA)) := by
  refine ⟨_, build_features_ok df h, ?_, ?_, ?_⟩
  · intro v hv
    unfold DataFrame.getCol at hv
    simp [DataFrame.getCol, List.find?, distanceCol, hv]
  · intro v hv1 hv2
    unfold DataFrame.getCol at hv1 hv2
    simp [DataFrame.getCol, List.find?, distanceCol, hv1, hv2]
  · intro hv1 hv2
    unfold DataFrame.getCol at hv1 hv2
    simp [DataFrame.getCol, List.find?, distanceCol, hv1, hv2]

/-- Witness for C5: the spec's example record `{"distance": 2150.0, ...}`
produces `distance_km = 2150.0 * 1.60934 = 3460.081`. -/
theorem C5_distance_rules_witness :
    build_features exC5 = .ok exC5out ∧
    exC5out.getCol "distance_km" = some [Value.num (3460081 / 1000)] := by
  obtain ⟨out, hok, _, hconv, _⟩ := C5_distance_rules exC5 (by decide)
  rw [exC5_eval] at hok
  injection hok with h3
  subst h3
  refine ⟨exC5_eval, ?_⟩
  rw [hconv [Value.num 2150] (by decide) (by decide)]
  simp [Value.scale, milesToKm]
  norm_num

/-- C6: when the input has no `avg_spend` column but has `total_spend`,
the output `avg_spend` is `total_spend` divided element-wise by the
derived `history_trips`, and every row whose derived trip count is zero
or unknown gets the unknown marker, not a numeric fallback. -/
theorem C6_avg_spend_derivation (df : DataFrame) (h : df.isEmpty = false)
    (hno : df.getCol "avg_spend" = none) (ts : List Value)
    (hts : df.getCol "total_spend" = some ts) :
    ∃ out, build_features df = .ok out ∧
      out.getCol "history_trips" = some (historyCol df) ∧
      out.getCol "avg_spend"
        = some ((ts.zip (historyCol df)).map (fun p => Value.divNA p.1 p.2)) ∧
      (∀ (i : Nat) (a : Value), ts[i]? = some a →
        ((historyCol df)[i]? = some (Value.num 0) ∨
         (historyCol df)[i]? = some Value.NA) →
        ((ts.zip (historyCol df)).map (fun p => Value.divNA p.1 p.2))[i]?
          = some Value.NA) := by
  refine ⟨_, build_features_ok df h, ?_, ?_, ?_⟩
  · simp [DataFrame.getCol, List.find?]
  · unfold DataFrame.getCol at hno hts
    simp [DataFrame.getCol, List.find?, avgSpendCol, hno, hts]
  · intro i a hia hz
    cases hz with
    | inl hz => rw [zip_map_divNA_get ts (historyCol df) i a _ hia hz, divNA_zero]
    | inr hz => rw [zip_map_divNA_get ts (historyCol df) i a _ hia hz, divNA_NA]

/-- The feature frame `build_features` produces from `exC6`. -/
def exC6out : DataFrame :=
  { index := [0, 1, 2],
    cols := [("distance_km", [Value.NA, Value.NA, Value.NA]),
             ("history_trips", [.num 0, Value.NA, .num 2]),
             ("avg_spend", [Value.NA, Value.NA, .num 25]),
             ("route_id", [Value.NA, Value.NA, Value.NA]),
             ("origin", [Value.NA, Value.NA, Value.NA]),
             ("destination", [Value.NA, Value.NA, Value.NA])] }

theorem exC6_eval : build_features exC6 = .ok exC6out := by
  rw [build_features_ok exC6 rfl]
  simp [exC6, exC6out, distanceCol, historyCol, avgSpendCol, passthroughCol,
        DataFrame.getCol, List.find?, Value.divNA]
  norm_num

/-- Witness for C6: total spends `[100, 90, 50]` over trip counts
`[0, NA, 2]` yield `avg_spend = [NA, NA, 25]` — the zero-count and
unknown-count rows get the unknown marker. -/
theorem C6_avg_spend_derivation_witness :
    build_features exC6 = .ok exC6out ∧
    exC6out.getCol "avg_spend" = some [Value.NA, Value.NA, Value.num 25] ∧
    (([Value.num 100, Value.num 90, Value.num 50].zip
        (historyCol exC6)).map (fun p => Value.divNA p.1 p.2))[0]?
      = some Value.NA ∧
    (([Value.num 100, Value.num 90, Value.num 50].zip
        (historyCol exC6)).map (fun p => Value.divNA p.1 p.2))[1]?
      = some Value.NA := by
  obtain ⟨out, hok, hhist, havg, hrow⟩ :=
    C6_avg_spend_derivation exC6 (by decide) (by decide)
      [Value.num 100, Value.num 90, Value.num 50] (by decide)
  exact ⟨exC6_eval, by decide,
         hrow 0 (Value.num 100) (by decide) (Or.inl (by decide)),
         hrow 1 (Value.num 90) (by decide) (Or.inr (by decide))⟩

/-- C4: an untrained predictor (`_fitted = False`) refuses both `predict`
(with the not-fitted `RuntimeError`) and `save` (with the
cannot-save-unfitted `RuntimeError`); neither operation succeeds before
`fit`. -/
theorem C4_untrained_predict_save_fail (p : DiscountPredictor)
    (h : p.fitted = false) (X : DataFrame) (path : String)
    (s : DiscountPredictor.Store) :
    p.predict X = .error .notFitted ∧
    p.save path s = .error .cannotSaveUnfitted :=
  ⟨predict_unfitted p h X, save_unfitted p h path s⟩

/-- Witness for C4: the freshly constructed predictor at concrete inputs. -/
theorem C4_untrained_predict_save_fail_witness :
    DiscountPredictor.init.predict exX6 = .error .notFitted ∧
    DiscountPredictor.init.save "model.joblib" [] = .error .cannotSaveUnfitted :=
  C4_untrained_predict_save_fail DiscountPredictor.init rfl exX6 "model.joblib" []

/-- C10: on an untrained predictor the not-fitted check precedes input
validation — every input, however invalid (empty, columns missing), gets
the not-fitted `RuntimeError` and never a validation `ValueError`. -/
theorem C10_not_fitted_check_first (p : DiscountPredictor) (X : DataFrame)
    (h : p.fitted = false) :
    p.predict X = .error .notFitted ∧
    p.predict X ≠ .error .emptyX ∧
    ∀ m, p.predict X ≠ .error (.missingColumns m) := by
  have hp := predict_unfitted p h X
  refine ⟨hp, ?_, ?_⟩
  · rw [hp]; intro hc; cases hc
  · intro m; rw [hp]; intro hc; cases hc

/-- Witness for C10: the fresh predictor on the empty frame (an input
that would fail validation) still reports not-fitted, not empty-input. -/
theorem C10_not_fitted_check_first_witness :
    DiscountPredictor.init.predict emptyDF = .error .notFitted ∧
    DiscountPredictor.init.predict emptyDF ≠ .error .emptyX :=
  ⟨(C10_not_fitted_check_first DiscountPredictor.init emptyDF rfl).1,
   (C10_not_fitted_check_first DiscountPredictor.init emptyDF rfl).2.1⟩

/-- C7: `fit` on an empty feature table raises the empty-input
`ValueError`, whatever the target argument holds — `_validate_X` runs
before `_validate_y` and is decisive. -/
theorem C7_fit_empty_X (p : DiscountPredictor) (X : DataFrame) (y : Series)
    (h : X.isEmpty = true) : (p.fit X y).1 = .error .emptyX := by
  simp [DiscountPredictor.fit, DiscountPredictor.validate_X, h]

/-- Witness for C7: fitting on the empty frame with an empty target and
with a non-empty target both yield the empty-features error. -/
theorem C7_fit_empty_X_witness :
    (DiscountPredictor.init.fit emptyDF exY).1 = .error .emptyX ∧
    (DiscountPredictor.init.fit emptyDF { index := [], values := [] }).1
      = .error .emptyX :=
  ⟨C7_fit_empty_X DiscountPredictor.init emptyDF exY rfl,
   C7_fit_empty_X DiscountPredictor.init emptyDF { index := [], values := [] } rfl⟩

/-- C9: `fit` is atomic with respect to its errors — when `fit` on an
untrained predictor raises, the instance state is unchanged, so it is
still untrained and a subsequent `predict` or `save` raises the
corresponding not-fitted/unfitted `RuntimeError`. -/
theorem C9_fit_atomic (p : DiscountPredictor) (X X' : DataFrame) (y : Series)
    (path : String) (s : DiscountPredictor.Store) (hp : p.fitted = false)
    (e : PredError) (he : (p.fit X y).1 = .error e) :
    (p.fit X y).2 = p ∧
    ((p.fit X y).2).predict X' = .error .notFitted ∧
    ((p.fit X y).2).save path s = .error .cannotSaveUnfitted := by
  have h2 := fit_error_state p X y e he
  rw [h2]
  exact ⟨rfl, predict_unfitted p hp X', save_unfitted p hp path s⟩

/-- Witness for C9: a failed fit (empty features) leaves the fresh
predictor untrained, so predict and save still fail. -/
theorem C9_fit_atomic_witness :
    ((DiscountPredictor.init.fit emptyDF exY).2) = DiscountPredictor.init ∧
    ((DiscountPredictor.init.fit emptyDF exY).2).predict exX6
      = .error .notFitted ∧
    ((DiscountPredictor.init.fit emptyDF exY).2).save "model.joblib" []
      = .error .cannotSaveUnfitted :=
  C9_fit_atomic DiscountPredictor.init emptyDF exX6 exY "model.joblib" []
    rfl .emptyX (by decide)

theorem missingOf_eq_nil_iff (X : DataFrame) :
    missingOf X = [] ↔ ∀ c ∈ REQUIRED_FEATURES, X.hasCol c = true := by
  simp [missingOf, List.filter_eq_nil_iff]

/-- C3 counterexample: the empty frame is missing every required column,
yet `fit` and `predict` (on a trained predictor) raise the empty-input
`ValueError` ("X is empty."), not the error naming the missing columns. -/
theorem C3_counterexample :
    emptyDF.hasCol "distance_km" = false ∧
    (DiscountPredictor.init.fit emptyDF exY).1 = .error .emptyX ∧
    (DiscountPredictor.init.fit emptyDF exY).1
      ≠ .error (.missingColumns (missingOf emptyDF)) ∧
    trainedEx.fitted = true ∧
    trainedEx.predict emptyDF = .error .emptyX ∧
    trainedEx.predict emptyDF
      ≠ .error (.missingColumns (missingOf emptyDF)) := by
  decide

/-- C3 (amended): on every *non-empty* table missing at least one required
column, `fit` (on any predictor state, in particular an untrained one)
and `predict` (on a trained predictor) raise the validation error naming
exactly the absent required columns; an empty table instead gets the
empty-input validation error. -/
theorem C3_fit_predict_name_missing_columns (X : DataFrame)
    (p q : DiscountPredictor) (y : Series) (hne : X.isEmpty = false)
    (hm : missingOf X ≠ []) (hf : q.fitted = true)
    (hpl : q.pipeline.isNone = false) :
    (p.fit X y).1 = .error (.missingColumns (missingOf X)) ∧
    q.predict X = .error (.missingColumns (missingOf X)) ∧
    ∀ c, c ∈ missingOf X ↔ (c ∈ REQUIRED_FEATURES ∧ X.hasCol c = false) := by
  have hv : DiscountPredictor.validate_X X
      = .error (.missingColumns (missingOf X)) := by
    simp [DiscountPredictor.validate_X, hne, hm]
  refine ⟨?_, ?_, ?_⟩
  · simp [DiscountPredictor.fit, hv]
  · cases hq : q.pipeline with
    | none => rw [hq] at hpl; simp at hpl
    | some pl => simp [DiscountPredictor.predict, hf, hq, hv]
  · intro c
    simp [missingOf, List.mem_filter]

/-- Witness for C3 (amended): a one-row frame carrying only `distance_km`;
`fit` on the fresh untrained predictor and `predict` on a trained one
both name the five absent columns. -/
theorem C3_fit_predict_name_missing_columns_witness :
    (DiscountPredictor.init.fit exXmiss exY).1
      = .error (.missingColumns (missingOf exXmiss)) ∧
    trainedEx.predict exXmiss
      = .error (.missingColumns (missingOf exXmiss)) :=
  ⟨(C3_fit_predict_name_missing_columns exXmiss DiscountPredictor.init
      trainedEx exY (by decide) (by decide) (by decide) (by decide)).1,
   (C3_fit_predict_name_missing_columns exXmiss DiscountPredictor.init
      trainedEx exY (by decide) (by decide) (by decide) (by decide)).2.1⟩

/-- C8 counterexample: a non-empty frame whose column set is the six
required columns plus a seventh `extra` column is *not* rejected —
`_validate_X` accepts it and `fit` succeeds. -/
theorem C8_counterexample :
    "extra" ∈ ex7.colNames ∧
    "extra" ∉ REQUIRED_FEATURES ∧
    DiscountPredictor.validate_X ex7 = .ok () ∧
    (DiscountPredictor.init.fit ex7 exY).1 = .ok () := by
  decide

/-- C8 (amended): validation of a feature table fails exactly when the
table is empty or one of the six required columns is absent; a table
containing all six required columns plus additional columns passes
validation (the extra columns are dropped by the preprocessing stage). -/
theorem C8_validation_characterization (X : DataFrame) :
    DiscountPredictor.validate_X X = .ok () ↔
      (X.isEmpty = false ∧ ∀ c ∈ REQUIRED_FEATURES, X.hasCol c = true) := by
  cases h1 : X.isEmpty with
  | true => simp [DiscountPredictor.validate_X, h1]
  | false =>
    by_cases h2 : missingOf X = []
    · simp [DiscountPredictor.validate_X, h1, h2]
      exact (missingOf_eq_nil_iff X).mp h2
    · simp [DiscountPredictor.validate_X, h1, h2]
      rw [missingOf_eq_nil_iff] at h2
      push_neg at h2
      simpa using h2

/-- Witness for C8 (amended): the seven-column frame satisfies the
right-hand side, hence passes validation. -/
theorem C8_validation_characterization_witness :
    DiscountPredictor.validate_X ex7 = .ok () :=
  (C8_validation_characterization ex7).mpr (by decide)

theorem storeGet_storePut (s : DiscountPredictor.Store) (path : String)
    (a : DiscountPredictor.Artifact) :
    DiscountPredictor.storeGet (DiscountPredictor.storePut s path a) path
      = some a := by
  simp [DiscountPredictor.storeGet, DiscountPredictor.storePut, List.find?]

/-- C1: for a predictor trained by a successful `fit`, `save` followed by
`load` yields a predictor whose `predict` on any input returns exactly
the same result as the pre-save predictor's `predict` on that input. -/
theorem C1_save_load_roundtrip (p : DiscountPredictor) (X : DataFrame)
    (y : Series) (path : String) (s : DiscountPredictor.Store)
    (X' : DataFrame) (h : (p.fit X y).1 = .ok ()) :
    ∃ s' q, ((p.fit X y).2).save path s = .ok s' ∧
      DiscountPredictor.load path s' = .ok q ∧
      q.predict X' = ((p.fit X y).2).predict X' := by
  cases hvx : DiscountPredictor.validate_X X with
  | error e => simp [DiscountPredictor.fit, hvx] at h
  | ok u =>
    cases hvy : DiscountPredictor.validate_y y with
    | error e => simp [DiscountPredictor.fit, hvx, hvy] at h
    | ok u' =>
      cases hpl : p.pipeline with
      | none => simp [DiscountPredictor.fit, hvx, hvy, hpl] at h
      | some pl =>
        have h2 : (p.fit X y).2 =
            { pipeline := some (pl.fitOn X (DiscountPredictor.alignY y X.index)),
              fitted := true } := by
          simp [DiscountPredictor.fit, hvx, hvy, hpl]
        rw [h2]
        refine ⟨DiscountPredictor.storePut s path
                  ⟨pl.fitOn X (DiscountPredictor.alignY y X.index), 1⟩,
                { pipeline := some (pl.fitOn X (DiscountPredictor.alignY y X.index)),
                  fitted := true },
                rfl, ?_, rfl⟩
        simp [DiscountPredictor.load, storeGet_storePut]

/-- The pipeline state learned by fitting on `exX6`/`exY`. -/
def trainedPipe : SklearnPipeline :=
  SklearnPipeline.initial.fitOn exX6 (DiscountPredictor.alignY exY exX6.index)

/-- The store contents after `trainedEx.save "model.joblib"`. -/
def exStore : DiscountPredictor.Store := [("model.joblib", ⟨trainedPipe, 1⟩)]

/-- The predictor `load` rebuilds from `exStore`. -/
def reloadedEx : DiscountPredictor := { pipeline := some trainedPipe, fitted := true }

/-- Witness for C1: fitting on concrete data, saving, and loading yields
a predictor with identical predictions on the training frame. -/
theorem C1_save_load_roundtrip_witness :
    ((DiscountPredictor.init.fit exX6 exY).2).save "model.joblib" []
      = .ok exStore ∧
    DiscountPredictor.load "model.joblib" exStore = .ok reloadedEx ∧
    reloadedEx.predict exX6
      = ((DiscountPredictor.init.fit exX6 exY).2).predict exX6 := by
  obtain ⟨s', q, h1, h2, h3⟩ :=
    C1_save_load_roundtrip DiscountPredictor.init exX6 exY "model.joblib" []
      exX6 (by decide)
  have hs : ((DiscountPredictor.init.fit exX6 exY).2).save "model.joblib" []
      = .ok exStore := by decide
  rw [hs] at h1
  injection h1 with h1e
  subst h1e
  have hl : DiscountPredictor.load "model.joblib" exStore = .ok reloadedEx := by
    decide
  rw [hl] at h2
  injection h2 with h2e
  subst h2e
  exact ⟨hs, hl, h3⟩

end AirlineML
